import Mathlib

/-!
Shallow embedding of the dd-scroller repository.

The embedding covers the Scroller class of src/src/scroll/scroll-by.ts
(lifecycle state machine, measurement caches, the scroll-stopper registry,
the scroll event classifier in the private method named onScroll with a
leading underscore, and the tracked animation-result slot), and the
scrollToSide coordinate helper of src/unnamed/part_000.

Conventions of the embedding:
- JavaScript numbers that hold scroll offsets and element sizes are modeled
  as integers (Int); none of the verified claims depends on fractional or
  floating-point behavior.
- The DOM element bound to a Scroller is modeled by the `Elem` record of the
  live measurements the source reads (scrollTop, scrollLeft, scrollWidth,
  scrollHeight, clientWidth, clientHeight). Methods that read or write the
  element take and return an `Elem` explicitly.
- Opaque runtime objects (scroll-stopper tokens, observer objects, event
  subscribers, ready-promise resolvers, ScrollResult handles) are modeled by
  natural-number identities; only identity matters to the source logic.
- Emitted events, calls into the external animation engine (the scrollBy /
  scrollTo functions imported from './scroll', whose implementation is not
  part of this repository's sources), and host side effects
  (enableScroll / disableScroll, listener attachment, the visibility
  service) are recorded in an output trace of type `List Ev`, in the order
  the source performs them. Event payloads (the lastPayload record) are not
  carried on the scroll-family trace entries; no verified statement inspects
  them.
- setTimeout / setInterval callbacks are not executed inside the pass that
  schedules them; the pending idle-judge timer is modeled as a Boolean flag.
-/

namespace DdScroller

/-- Scroll axis, source type ScrollAxis = 'x' | 'y'. -/
inductive ScrollAxis where
  | x
  | y
deriving DecidableEq, Repr

/-- Vertical direction, source type ScrollYDirection = 'top' | 'bottom'. -/
inductive ScrollYDirection where
  | top
  | bottom
deriving DecidableEq, Repr

/-- Horizontal direction, source type ScrollXDirection = 'left' | 'right'. -/
inductive ScrollXDirection where
  | left
  | right
deriving DecidableEq, Repr

/-- Combined direction, source type ScrollDirection (union of the two). -/
inductive ScrollDirection where
  | top
  | bottom
  | left
  | right
deriving DecidableEq, Repr

def ScrollYDirection.toDirection : ScrollYDirection → ScrollDirection
  | .top => .top
  | .bottom => .bottom

def ScrollXDirection.toDirection : ScrollXDirection → ScrollDirection
  | .left => .left
  | .right => .right

/-- Lifecycle states, source enum ScrollerState. -/
inductive ScrollerState where
  | pending
  | ready
  | running
  | destroyed
deriving DecidableEq, Repr

/-- Errors raised synchronously by the source (the `error(...)` helper). -/
inductive ScrollerError where
  | alreadyDestroyed
  | invalidTarget
  | missingContainer
deriving DecidableEq, Repr

/-- Live DOM measurements of the bound element, read by the source through
`this.el` / `document`. -/
structure Elem where
  scrollTop : Int
  scrollLeft : Int
  scrollWidth : Int
  scrollHeight : Int
  clientWidth : Int
  clientHeight : Int
deriving DecidableEq, Repr

/-- Trace entries: events emitted to subscribers, engine calls, and host
side effects, recorded in source order. -/
inductive Ev where
  | changeAxis (a : ScrollAxis)
  | changeLastXDirection (d : ScrollXDirection)
  | changeLastYDirection (d : ScrollYDirection)
  | changeLastDirection (d : ScrollDirection)
  | scrollStart
  | scroll
  | scrollEnd
  | resize (w h : Int)
  | ready
  | changeState (st : ScrollerState)
  | cancelResult (id : Nat)
  | startScroll (id : Nat)
  | enableHostScroll
  | disableHostScroll
  | removeVisibilityListener
  | startListeners
  | stopListeners
  | offAll
  | waiterResumed (id : Nat)
deriving DecidableEq, Repr

/-- State of one Scroller instance: the instance fields of the source class.
Field names follow the source (private fields keep their leading
underscore). `_elBound` stands for whether the `_el` reference is set,
`_listenersActive` for the scroll/resize listeners being attached,
`_scrollingJudgeTimerPending` for a scheduled idle-judge timeout, and
`_subscribers` for the DDEvent listener registry cleared by `offAll()`. -/
structure Scroller where
  scrollingJudgeInterval : Int
  baseAxis : ScrollAxis
  scrollSizeOvserver : Bool
  _elBound : Bool
  _state : ScrollerState
  _containerWidth : Int
  _containerHeight : Int
  _scrollWidth : Int
  _scrollHeight : Int
  _scrollTop : Int
  _scrollRight : Int
  _scrollBottom : Int
  _scrollLeft : Int
  _lastAxis : ScrollAxis
  _lastDirection : ScrollDirection
  _lastYDirection : ScrollYDirection
  _lastXDirection : ScrollXDirection
  _nowScrolling : Bool
  _readyResolvers : List Nat
  _scrollingJudgeTimerPending : Bool
  _startX : Int
  _startY : Int
  _tickedX : Int
  _tickedY : Int
  _lastTotalX : Int
  _lastTotalY : Int
  _scrollToResult : Option Nat
  _observers : List Nat
  _scrollStoppers : List Nat
  _subscribers : List Nat
  _listenersActive : Bool
  _visibilityListenerAttached : Bool
deriving DecidableEq, Repr

namespace Scroller

/-- Getter `isPending` (scroll-by.ts). -/
def isPending (s : Scroller) : Bool :=
  s._state == ScrollerState.pending

/-- Getter `isReady` (scroll-by.ts). -/
def isReady (s : Scroller) : Bool :=
  s._state == ScrollerState.ready

/-- Getter `isRunning` (scroll-by.ts). -/
def isRunning (s : Scroller) : Bool :=
  s._state == ScrollerState.running

/-- Getter `isDestroyed` (scroll-by.ts). -/
def isDestroyed (s : Scroller) : Bool :=
  s._state == ScrollerState.destroyed

/-- Getter `scrollEnabled`: `return this._scrollStoppers.length === 0`. -/
def scrollEnabled (s : Scroller) : Bool :=
  s._scrollStoppers.length == 0

/-- Private `_setState`: assigns the state and, when it changed, emits
`changeState` (the observer sync carries no event). -/
def _setState (s : Scroller) (st : ScrollerState) : Scroller × List Ev :=
  if s._state ≠ st then ({ s with _state := st }, [Ev.changeState st])
  else (s, [])

/-- `cancel()`: when a tracked ScrollResult exists, calls its `cancel()`
(recorded as a `cancelResult` engine action) and clears the slot
(`_clearScrollToResult`). -/
def cancel (s : Scroller) : Scroller × List Ev :=
  match s._scrollToResult with
  | none => (s, [])
  | some id => ({ s with _scrollToResult := none }, [Ev.cancelResult id])

/-- Private `_setScrollToResult`: overwrites the tracked-result slot with the
new result. The `result.promise.then(...)` registration runs only when that
promise later resolves and is not part of this synchronous call. -/
def _setScrollToResult (s : Scroller) (resultId : Nat) : Scroller :=
  { s with _scrollToResult := some resultId }

/-- Private `_updateScrollable`: host-level enable/disable of scrolling
depending on `scrollEnabled`; `_scrollDisable` first cancels any tracked
animation. -/
def _updateScrollable (s : Scroller) : Scroller × List Ev :=
  if s.scrollEnabled then (s, [Ev.enableHostScroll])
  else
    let r := s.cancel
    (r.1, r.2 ++ [Ev.disableHostScroll])

/-- `pushScrollStopper(stopper)`: appends the token unless already present;
when the registry becomes non-empty (length 1) refreshes the host scroll
lock and syncs observers. The returned remover closure is not modeled. -/
def pushScrollStopper (s : Scroller) (t : Nat) : Scroller × List Ev :=
  if s._scrollStoppers.contains t then (s, [])
  else
    let s1 : Scroller := { s with _scrollStoppers := s._scrollStoppers ++ [t] }
    if s1._scrollStoppers.length == 1 then s1._updateScrollable
    else (s1, [])

/-- `removeScrollStopper(stopper)`: removes the first occurrence of the token
when present (`indexOf` / `splice`); when the registry becomes empty
refreshes the host scroll lock and syncs observers. -/
def removeScrollStopper (s : Scroller) (t : Nat) : Scroller × List Ev :=
  if s._scrollStoppers.contains t then
    let s1 : Scroller := { s with _scrollStoppers := s._scrollStoppers.erase t }
    if s1._scrollStoppers.length == 0 then s1._updateScrollable
    else (s1, [])
  else (s, [])

/-- Private `_updateContainerSize`: the defaulted parameters read
`clientWidth`/`clientHeight` (for the body element the source reads them off
`document.documentElement`; one element record stands for both reads); emits
`resize` when either dimension changed. -/
def _updateContainerSize (s : Scroller) (el : Elem) (w h : Option Int) :
    Scroller × List Ev :=
  let width := w.getD el.clientWidth
  let height := h.getD el.clientHeight
  let s1 : Scroller :=
    { s with _containerWidth := width, _containerHeight := height }
  (s1,
    if width ≠ s._containerWidth ∨ height ≠ s._containerHeight then
      [Ev.resize width height]
    else [])

/-- Private `_updateScrollSize`: caches `el.scrollWidth` / `el.scrollHeight`
(the observer sync on change carries no event). -/
def _updateScrollSize (s : Scroller) (el : Elem) : Scroller :=
  { s with _scrollWidth := el.scrollWidth, _scrollHeight := el.scrollHeight }

/-- Private `_updateScrollPositions`: caches the element offsets and
re-derives the advanced values
`_scrollBottom = _scrollHeight - _scrollTop - _containerHeight` and
`_scrollRight = _scrollWidth - _scrollLeft - _containerWidth`. -/
def _updateScrollPositions (s : Scroller) (el : Elem) : Scroller :=
  { s with
    _scrollTop := el.scrollTop
    _scrollLeft := el.scrollLeft
    _scrollBottom := s._scrollHeight - el.scrollTop - s._containerHeight
    _scrollRight := s._scrollWidth - el.scrollLeft - s._containerWidth }

/-- Private `_update(width?, height?)`: container size, then scroll size,
then positions. -/
def _update (s : Scroller) (el : Elem) (w h : Option Int) :
    Scroller × List Ev :=
  let r1 := s._updateContainerSize el w h
  let s2 : Scroller := r1.1._updateScrollSize el
  let s3 : Scroller := s2._updateScrollPositions el
  (s3, r1.2)

/-- One firing of the `window.setInterval` callback installed by
`_startScrollSizeOvserver` (scroll-by.ts lines 1107-1114): when the
`scrollSizeOvserver` setting is gone or the instance is destroyed it only
stops the polling, otherwise it runs `_updateScrollSize()`. -/
def scrollSizeOvserverTick (s : Scroller) (el : Elem) : Scroller :=
  if ¬ s.scrollSizeOvserver ∨ s.isDestroyed then s
  else s._updateScrollSize el

/-- Kind argument of `_triggerScrollTick` (one of the three scroll-family
event names). -/
inductive TickKind where
  | scrollStart
  | scroll
  | scrollEnd
deriving DecidableEq, Repr

def TickKind.toEv : TickKind → Ev
  | .scrollStart => Ev.scrollStart
  | .scroll => Ev.scroll
  | .scrollEnd => Ev.scrollEnd

/-- Private `_triggerScrollTick(event)`: on `scrollStart` records the episode
start offsets, zeroes the running totals and marks scrolling active; on
`scrollEnd` marks it inactive; then emits the event (with `lastPayload`,
whose fields the trace entry does not carry). The `nowScrolling` observer
sync carries no event. -/
def _triggerScrollTick (s : Scroller) (e : TickKind) : Scroller × List Ev :=
  let s1 : Scroller :=
    if e = TickKind.scrollStart then
      { s with
        _startX := s._scrollLeft
        _startY := s._scrollTop
        _lastTotalX := 0
        _lastTotalY := 0
        _nowScrolling := true }
    else if e = TickKind.scrollEnd then { s with _nowScrolling := false }
    else s
  (s1, [e.toEv])

/-- Ticked horizontal delta computed by `_onScroll`
(`this._scrollLeft - _scrollLeft`): the element's new offset minus the
cached one. -/
def nextTickedX (s : Scroller) (el : Elem) : Int :=
  el.scrollLeft - s._scrollLeft

/-- Ticked vertical delta computed by `_onScroll`
(`this._scrollTop - _scrollTop`). -/
def nextTickedY (s : Scroller) (el : Elem) : Int :=
  el.scrollTop - s._scrollTop

/-- Axis assigned by the "update axis" step of `_onScroll`
(scroll-by.ts lines 1254-1259): the base axis when the signed ticked deltas
are strictly equal (`tickedX === tickedY`), otherwise x exactly when
`Math.abs(tickedX) > Math.abs(tickedY)`. -/
def nextAxis (s : Scroller) (el : Elem) : ScrollAxis :=
  if nextTickedX s el = nextTickedY s el then s.baseAxis
  else if (nextTickedX s el).natAbs > (nextTickedY s el).natAbs then
    ScrollAxis.x
  else ScrollAxis.y

/-- Vertical direction assigned by the "update directions" step of
`_onScroll` (lines 1261-1266): bottom when the offset grew, top when it
shrank, otherwise the retained previous direction. -/
def nextYDirection (s : Scroller) (el : Elem) : ScrollYDirection :=
  if s._scrollTop < el.scrollTop then ScrollYDirection.bottom
  else if s._scrollTop > el.scrollTop then ScrollYDirection.top
  else s._lastYDirection

/-- Horizontal direction assigned by the "update directions" step of
`_onScroll` (lines 1268-1272). -/
def nextXDirection (s : Scroller) (el : Elem) : ScrollXDirection :=
  if s._scrollLeft < el.scrollLeft then ScrollXDirection.right
  else if s._scrollLeft > el.scrollLeft then ScrollXDirection.left
  else s._lastXDirection

/-- Composite direction assigned by `_onScroll` (lines 1274-1275): the new
per-axis direction of the newly selected axis. -/
def nextDirection (s : Scroller) (el : Elem) : ScrollDirection :=
  if nextAxis s el = ScrollAxis.y then (nextYDirection s el).toDirection
  else (nextXDirection s el).toDirection

/-- The "judge scroll end by before axis and directions" condition of
`_onScroll` (lines 1314-1318): the axis changed, or the previously active
axis is y and the y direction changed, or it is x and the x direction
changed. -/
def scrollEndJudge (s : Scroller) (el : Elem) : Prop :=
  nextAxis s el ≠ s._lastAxis ∨
    (s._lastAxis = ScrollAxis.y ∧ nextYDirection s el ≠ s._lastYDirection) ∨
    (s._lastAxis = ScrollAxis.x ∧ nextXDirection s el ≠ s._lastXDirection)

instance (s : Scroller) (el : Elem) : Decidable (scrollEndJudge s el) := by
  unfold scrollEndJudge
  exact inferInstance

/-- The change notifications emitted by `_onScroll` (lines 1283-1297), in
source order: `changeAxis`, `changeLastXDirection`, `changeLastYDirection`,
`changeLastDirection`, each exactly when the corresponding value differs
from the previous tick. -/
def changeEvents (s : Scroller) (el : Elem) : List Ev :=
  (if nextAxis s el ≠ s._lastAxis then [Ev.changeAxis (nextAxis s el)]
    else []) ++
  (if nextXDirection s el ≠ s._lastXDirection then
    [Ev.changeLastXDirection (nextXDirection s el)] else []) ++
  (if nextYDirection s el ≠ s._lastYDirection then
    [Ev.changeLastYDirection (nextYDirection s el)] else []) ++
  (if nextDirection s el ≠ s._lastDirection then
    [Ev.changeLastDirection (nextDirection s el)] else [])

/-- Private `_onScroll()`: the per-notification classifier
(scroll-by.ts lines 1228-1339). Takes the element's live measurements at
notification time and returns the updated instance state, the element state
after any writes the handler performs, and the trace of emitted events.

The source assigns `_tickedX/_tickedY`, then `_lastAxis`, then the two
per-axis directions, then `_lastDirection`, each from the before-values
captured at entry and the freshly cached offsets; those assignments touch
disjoint fields, so they are gathered into one record update built from the
`next*` step functions above. The final `setTimeout` only schedules the
idle-judge callback; this is recorded by setting
`_scrollingJudgeTimerPending`. -/
def _onScroll (s : Scroller) (el : Elem) : Scroller × Elem × List Ev :=
  if ¬ s.scrollEnabled then
    (s, { el with scrollLeft := s._scrollLeft, scrollTop := s._scrollTop }, [])
  else
    let s1 : Scroller := s._updateScrollPositions el
    let s6 : Scroller :=
      { s1 with
        _tickedX := nextTickedX s el
        _tickedY := nextTickedY s el
        _lastAxis := nextAxis s el
        _lastYDirection := nextYDirection s el
        _lastXDirection := nextXDirection s el
        _lastDirection := nextDirection s el }
    -- in-episode branch: implicit end on axis/active-direction change,
    -- otherwise accumulate totals and emit a tick
    let afterTick : Scroller × List Ev :=
      if s6._nowScrolling then
        if scrollEndJudge s el then
          -- source comment: emit scroll end & start(both)
          s6._triggerScrollTick TickKind.scrollEnd
        else
          let s7 : Scroller :=
            { s6 with
              _lastTotalX := s6._scrollLeft - s6._startX
              _lastTotalY := s6._scrollTop - s6._startY }
          s7._triggerScrollTick TickKind.scroll
      else (s6, [])
    -- judge scroll start (note: _nowScrolling is re-read here, so the same
    -- pass that just emitted scrollEnd enters this branch)
    let afterStart : Scroller × List Ev :=
      if ¬ afterTick.1._nowScrolling then
        (afterTick.1._updateScrollSize el)._triggerScrollTick
          TickKind.scrollStart
      else (afterTick.1, [])
    let s10 : Scroller :=
      { afterStart.1 with _scrollingJudgeTimerPending := true }
    (s10, el, changeEvents s el ++ afterTick.2 ++ afterStart.2)

/-- Body of `stop()` after its `_checkDestroyed()` guard: detaches listeners
and transitions Running to Ready; a no-op when not Running. -/
def stopAux (s : Scroller) : Scroller × List Ev :=
  if ¬ s.isRunning then (s, [])
  else
    let s1 : Scroller := { s with _listenersActive := false }
    let r := s1._setState ScrollerState.ready
    (r.1, Ev.stopListeners :: r.2)

/-- `stop()`: raises when destroyed, otherwise `stopAux`. -/
def stop (s : Scroller) : Except ScrollerError (Scroller × List Ev) :=
  if s.isDestroyed then .error ScrollerError.alreadyDestroyed
  else .ok s.stopAux

/-- `ready()`: raises when destroyed; already resolved when not Pending;
otherwise queues a resolver for the returned promise. -/
def ready (s : Scroller) (resolverId : Nat) :
    Except ScrollerError (Scroller × List Ev) :=
  if s.isDestroyed then .error ScrollerError.alreadyDestroyed
  else if ¬ s.isPending then .ok (s, [])
  else .ok ({ s with _readyResolvers := s._readyResolvers ++ [resolverId] }, [])

/-- `start()`: raises when destroyed; a no-op when already Running. From the
Pending state the source awaits `ready()` and the continuation runs only
once an element is bound (that deferred continuation is not modeled; no
verified statement starts a pending instance). From Ready it attaches the
listeners and transitions to Running. -/
def start (s : Scroller) : Except ScrollerError (Scroller × List Ev) :=
  if s.isDestroyed then .error ScrollerError.alreadyDestroyed
  else if s.isRunning then .ok (s, [])
  else if s.isPending then .ok (s, [])
  else
    let s1 : Scroller := { s with _listenersActive := true }
    let r := s1._setState ScrollerState.running
    .ok (r.1, Ev.startListeners :: r.2)

/-- `destroy()`: returns at once when already Destroyed; otherwise stops
(the inner `_checkDestroyed` passes here), cancels any tracked animation,
clears the resolver queue, the stopper registry (then re-enables host
scrolling), and the observers, detaches the visibility listener, releases
the instance references, transitions to Destroyed and removes all event
subscribers (`offAll`). -/
def destroy (s : Scroller) : Scroller × List Ev :=
  if s.isDestroyed then (s, [])
  else
    let r1 := s.stopAux
    let r2 := r1.1.cancel
    let s3 : Scroller :=
      { r2.1 with
        _readyResolvers := []
        _scrollStoppers := []
        _observers := []
        _visibilityListenerAttached := false
        _elBound := false
        _scrollToResult := none
        _listenersActive := false }
    let r4 := s3._setState ScrollerState.destroyed
    let s5 : Scroller := { r4.1 with _subscribers := [] }
    (s5,
      r1.2 ++ r2.2 ++ [Ev.enableHostScroll, Ev.removeVisibilityListener] ++
        r4.2 ++ [Ev.offAll])

/-- `by(diffX, diffY, options?)`: merges the per-call options over the
instance defaults (`container` defaulting to the bound element) and
delegates to the external `scrollBy` engine — recorded as a `startScroll`
action carrying the fresh ScrollResult identity — then tracks the result
through `_setScrollToResult`. The source performs no destroyed check on this
path; the only exception the engine may raise (a missing container) is not
an alreadyDestroyed failure. -/
def by' (s : Scroller) (resultId : Nat) :
    Except ScrollerError (Scroller × List Ev) :=
  .ok (s._setScrollToResult resultId, [Ev.startScroll resultId])

/-- Private `_setup()`: refreshes the host scroll lock and all measurements,
transitions to Ready, calls `start()` (whose body suspends at
`await this.ready()` on an already-resolved promise, so its remainder runs
as the first queued microtask), emits `ready`, calls each queued
ready-resolver and clears the queue. The trace then continues with the
drained microtasks: first the `start()` continuation (listener attachment
and the Running transition), then the resumption of each ready waiter, in
queue order. -/
def _setup (s : Scroller) (el : Elem) : Scroller × List Ev :=
  let r0 := s._updateScrollable
  let r1 := r0.1._update el none none
  let r2 := r1.1._setState ScrollerState.ready
  let waiters := r2.1._readyResolvers
  let s3 : Scroller := { r2.1 with _readyResolvers := [] }
  let s4 : Scroller := { s3 with _listenersActive := true }
  let r5 := s4._setState ScrollerState.running
  (r5.1,
    r0.2 ++ r1.2 ++ r2.2 ++ [Ev.ready, Ev.startListeners] ++ r5.2 ++
      waiters.map Ev.waiterResumed)

/-- `setElement(el?)`: stops first (raising when destroyed), fails with the
missing-scrolling-element error when resolution (querySelector or
`document.scrollingElement`) produced nothing, otherwise binds the element
and runs `_setup()`. The `resolved` argument is the outcome of that
resolution. -/
def setElement (s : Scroller) (resolved : Option Elem) :
    Except ScrollerError (Scroller × List Ev) :=
  match s.stop with
  | .error e => .error e
  | .ok r =>
    match resolved with
    | none => .error ScrollerError.invalidTarget
    | some el =>
      let s1 : Scroller := { r.1 with _elBound := true }
      let r2 := s1._setup el
      .ok (r2.1, r.2 ++ r2.2)

end Scroller

/-- Partial scroll position built by the coordinate helpers: an axis left at
none is not touched by the scroll request (source type
Partial of ScrollPosition). -/
structure ScrollPositionPartial where
  x : Option Int := none
  y : Option Int := none
deriving DecidableEq, Repr

/-- `scrollToSide(targets, options?)` of src/unnamed/part_000: computes the
target position from the requested sides. When 'top' is requested the y
target is 0 and — through the else-if — a requested 'left' is skipped;
otherwise 'left' sets the x target to 0. A 'right' or 'bottom' request needs
the resolved container (raising the missing-container error otherwise) and
sets the corresponding axis to the container's content size. The `container`
argument is the outcome of resolving `options.container` or the default
container. The final delegation to the external `scrollTo` engine receives
this position; the helper itself is pure coordinate arithmetic. -/
def scrollToSide (sides : List ScrollDirection) (container : Option Elem) :
    Except ScrollerError ScrollPositionPartial :=
  let hasRight := sides.contains ScrollDirection.right
  let hasBottom := sides.contains ScrollDirection.bottom
  let position : ScrollPositionPartial :=
    if sides.contains ScrollDirection.top then { y := some 0 }
    else if sides.contains ScrollDirection.left then { x := some 0 }
    else {}
  if hasRight || hasBottom then
    match container with
    | none => .error ScrollerError.missingContainer
    | some c =>
      let p1 := if hasRight then { position with x := some c.scrollWidth }
        else position
      let p2 := if hasBottom then { p1 with y := some c.scrollHeight }
        else p1
      .ok p2
  else .ok position

/-- Modelled from the spec: the left-top corner helper (`scrollToLeftTop`,
re-exported by scroll-by.ts from './scroll' but absent from the available
sources) is one of the "corner variants" that "merges per-call options over
instance defaults ... and delegates" — it requests the left and top sides
through `scrollToSide`. -/
def scrollToLeftTop (container : Option Elem) :
    Except ScrollerError ScrollPositionPartial :=
  scrollToSide [ScrollDirection.left, ScrollDirection.top] container

/-- A concrete element: 1000 by 1000 of content inside a 200 by 200
viewport, scrolled to offset (0, 10). -/
def elemA : Elem :=
  { scrollTop := 10
    scrollLeft := 0
    scrollWidth := 1000
    scrollHeight := 1000
    clientWidth := 200
    clientHeight := 200 }

/-- A concrete running Scroller bound to `elemA`, mid-episode scrolling
toward the bottom on the y axis. -/
def scrollerA : Scroller :=
  { scrollingJudgeInterval := 500
    baseAxis := ScrollAxis.y
    scrollSizeOvserver := false
    _elBound := true
    _state := ScrollerState.running
    _containerWidth := 200
    _containerHeight := 200
    _scrollWidth := 1000
    _scrollHeight := 1000
    _scrollTop := 10
    _scrollRight := 800
    _scrollBottom := 790
    _scrollLeft := 0
    _lastAxis := ScrollAxis.y
    _lastDirection := ScrollDirection.bottom
    _lastYDirection := ScrollYDirection.bottom
    _lastXDirection := ScrollXDirection.left
    _nowScrolling := true
    _readyResolvers := []
    _scrollingJudgeTimerPending := true
    _startX := 0
    _startY := 0
    _tickedX := 0
    _tickedY := 10
    _lastTotalX := 0
    _lastTotalY := 10
    _scrollToResult := none
    _observers := []
    _scrollStoppers := []
    _subscribers := []
    _listenersActive := true
    _visibilityListenerAttached := true }

/-- The element after the user reversed: scrollTop moved from 10 back
to 5. -/
def elemReversed : Elem :=
  { elemA with scrollTop := 5 }

/-- A Scroller configured with x as the base axis, cached at offset
(0, 5). -/
def scrollerBaseX : Scroller :=
  { scrollerA with
    baseAxis := ScrollAxis.x
    _lastAxis := ScrollAxis.x
    _lastDirection := ScrollDirection.left
    _scrollTop := 5 }

/-- An element producing a diagonal tick of equal magnitude and opposite
sign against `scrollerBaseX`: tickedX is 5, tickedY is -5. -/
def elemDiagonal : Elem :=
  { elemA with scrollTop := 0, scrollLeft := 5 }

/-- A Scroller tracking an in-flight animation result (identity 1). -/
def scrollerWithResult : Scroller :=
  { scrollerA with _scrollToResult := some 1 }

/-- A Scroller with the background size polling configured. -/
def scrollerPolling : Scroller :=
  { scrollerA with scrollSizeOvserver := true }

/-- The element after its content grew to 1500 while the cached snapshot
still says 1000. -/
def elemGrown : Elem :=
  { elemA with scrollHeight := 1500 }

/-- An unbound, pending Scroller with two queued ready waiters. -/
def scrollerPending : Scroller :=
  { scrollerA with
    _state := ScrollerState.pending
    _nowScrolling := false
    _listenersActive := false
    _elBound := false
    _readyResolvers := [7, 8] }

/-- A Scroller whose scrolling is suspended by one stopper token. -/
def scrollerStopped : Scroller :=
  { scrollerA with _scrollStoppers := [3] }

namespace Scroller

lemma trigger_fst_lastAxis (s : Scroller) (e : TickKind) :
    (s._triggerScrollTick e).1._lastAxis = s._lastAxis := by
  cases e <;> rfl

lemma trigger_fst_lastYDirection (s : Scroller) (e : TickKind) :
    (s._triggerScrollTick e).1._lastYDirection = s._lastYDirection := by
  cases e <;> rfl

lemma trigger_fst_lastXDirection (s : Scroller) (e : TickKind) :
    (s._triggerScrollTick e).1._lastXDirection = s._lastXDirection := by
  cases e <;> rfl

/-- The classifier leaves `_lastAxis` at the value chosen by the axis-update
step: the episode bookkeeping after it touches other fields only. -/
lemma onScroll_fst_lastAxis (s : Scroller) (el : Elem)
    (hen : s.scrollEnabled = true) :
    (s._onScroll el).1._lastAxis = nextAxis s el := by
  simp only [Scroller._onScroll, hen, not_true, if_false]
  split_ifs <;> simp [trigger_fst_lastAxis, Scroller._updateScrollSize]

/-- The classifier leaves `_lastYDirection` at the value chosen by the
direction-update step. -/
lemma onScroll_fst_lastYDirection (s : Scroller) (el : Elem)
    (hen : s.scrollEnabled = true) :
    (s._onScroll el).1._lastYDirection = nextYDirection s el := by
  simp only [Scroller._onScroll, hen, not_true, if_false]
  split_ifs <;> simp [trigger_fst_lastYDirection, Scroller._updateScrollSize]

/-- The classifier leaves `_lastXDirection` at the value chosen by the
direction-update step. -/
lemma onScroll_fst_lastXDirection (s : Scroller) (el : Elem)
    (hen : s.scrollEnabled = true) :
    (s._onScroll el).1._lastXDirection = nextXDirection s el := by
  simp only [Scroller._onScroll, hen, not_true, if_false]
  split_ifs <;> simp [trigger_fst_lastXDirection, Scroller._updateScrollSize]

/-- C1. The claim states that an axis or active-axis direction change
inside an episode emits scrollEnd without a scrollStart in the same pass,
the episode staying ended until the idle timer or a later notification. On
the concrete reversal below the pass emits scrollEnd immediately followed
by scrollStart and leaves the episode active (nowScrolling stays true):
after `_triggerScrollTick('scrollEnd')` clears `_nowScrolling`, the
"judge scroll start" block re-reads the flag and reopens the episode. -/
theorem c1_counterexample :
    (scrollerA._onScroll elemReversed).2.2 =
      [Ev.changeLastYDirection ScrollYDirection.top,
        Ev.changeLastDirection ScrollDirection.top,
        Ev.scrollEnd, Ev.scrollStart] ∧
    Ev.scrollStart ∈ (scrollerA._onScroll elemReversed).2.2 ∧
    (scrollerA._onScroll elemReversed).1._nowScrolling = true := by
  decide

/-- C1 (amended): for every raw scroll notification arriving while a scroll
episode is active, if the classified axis or the active-axis direction
changed relative to the previous tick, the pass emits scrollEnd for the
previous episode and then — because the not-scrolling branch re-reads the
cleared flag — immediately emits scrollStart, reopening a new episode in
the same pass; the instance is left with the episode active. -/
theorem c1_end_then_start (s : Scroller) (el : Elem)
    (hen : s.scrollEnabled = true) (hns : s._nowScrolling = true)
    (hj : scrollEndJudge s el) :
    (s._onScroll el).2.2 =
      changeEvents s el ++ [Ev.scrollEnd, Ev.scrollStart] ∧
    (s._onScroll el).1._nowScrolling = true := by
  simp only [Scroller._onScroll, hen, not_true, if_false]
  simp [Scroller._updateScrollPositions, hns, hj,
    Scroller._triggerScrollTick, Scroller._updateScrollSize, TickKind.toEv]

/-- C1 witness: the amended statement at the concrete reversal input. -/
theorem c1_witness :
    (scrollerA._onScroll elemReversed).2.2 =
      changeEvents scrollerA elemReversed ++ [Ev.scrollEnd, Ev.scrollStart] ∧
    (scrollerA._onScroll elemReversed).1._nowScrolling = true :=
  c1_end_then_start scrollerA elemReversed (by decide) (by decide) (by decide)

/-- C2. The claim states the classified axis is the configured base axis
whenever the absolute tick deltas are equal, including opposite signs. With
base axis x and a tick of (5, -5) the source's `tickedX === tickedY` test
fails (signed comparison) and `Math.abs(5) > Math.abs(-5)` is false, so the
axis becomes y, not the configured base axis x. -/
theorem c2_counterexample :
    scrollerBaseX.baseAxis = ScrollAxis.x ∧
    (scrollerBaseX._onScroll elemDiagonal).1._tickedX = 5 ∧
    (scrollerBaseX._onScroll elemDiagonal).1._tickedY = -5 ∧
    ((scrollerBaseX._onScroll elemDiagonal).1._tickedX).natAbs =
      ((scrollerBaseX._onScroll elemDiagonal).1._tickedY).natAbs ∧
    (scrollerBaseX._onScroll elemDiagonal).1._lastAxis = ScrollAxis.y := by
  decide

/-- C2 (amended): for every raw scroll notification, the classified axis is
x when |tickedX| > |tickedY| and y when |tickedY| > |tickedX|; the
configured base axis is chosen exactly when the signed deltas are equal
(`tickedX === tickedY`), and when the deltas have equal magnitude but are
not equal (opposite signs) the axis is y. -/
theorem c2_axis_selection (s : Scroller) (el : Elem)
    (hen : s.scrollEnabled = true) :
    ((nextTickedX s el).natAbs > (nextTickedY s el).natAbs →
      (s._onScroll el).1._lastAxis = ScrollAxis.x) ∧
    ((nextTickedY s el).natAbs > (nextTickedX s el).natAbs →
      (s._onScroll el).1._lastAxis = ScrollAxis.y) ∧
    (nextTickedX s el = nextTickedY s el →
      (s._onScroll el).1._lastAxis = s.baseAxis) ∧
    ((nextTickedX s el).natAbs = (nextTickedY s el).natAbs →
      nextTickedX s el ≠ nextTickedY s el →
      (s._onScroll el).1._lastAxis = ScrollAxis.y) := by
  rw [onScroll_fst_lastAxis s el hen]
  unfold nextAxis
  refine ⟨?_, ?_, ?_, ?_⟩
  · intro h
    split_ifs with h1 h2 <;> first | rfl | omega
  · intro h
    split_ifs with h1 h2 <;> first | rfl | omega
  · intro h
    simp [h]
  · intro h hne
    split_ifs with h1 h2 <;> first | rfl | omega

/-- C2 witness: the amended statement at the concrete diagonal input. -/
theorem c2_witness :
    (((nextTickedX scrollerBaseX elemDiagonal).natAbs >
        (nextTickedY scrollerBaseX elemDiagonal).natAbs →
      (scrollerBaseX._onScroll elemDiagonal).1._lastAxis = ScrollAxis.x) ∧
    ((nextTickedY scrollerBaseX elemDiagonal).natAbs >
        (nextTickedX scrollerBaseX elemDiagonal).natAbs →
      (scrollerBaseX._onScroll elemDiagonal).1._lastAxis = ScrollAxis.y) ∧
    (nextTickedX scrollerBaseX elemDiagonal =
        nextTickedY scrollerBaseX elemDiagonal →
      (scrollerBaseX._onScroll elemDiagonal).1._lastAxis =
        scrollerBaseX.baseAxis) ∧
    ((nextTickedX scrollerBaseX elemDiagonal).natAbs =
        (nextTickedY scrollerBaseX elemDiagonal).natAbs →
      nextTickedX scrollerBaseX elemDiagonal ≠
        nextTickedY scrollerBaseX elemDiagonal →
      (scrollerBaseX._onScroll elemDiagonal).1._lastAxis = ScrollAxis.y)) :=
  c2_axis_selection scrollerBaseX elemDiagonal (by decide)

/-- C3. The claim states a new animated scroll request cancels and replaces
the controller's current-operation slot. On the concrete run below, with
result 1 still in flight, `by` produces only the engine call for the new
result 2 and overwrites the slot; no `cancel()` of result 1 is performed by
the controller. -/
theorem c3_counterexample :
    scrollerWithResult._scrollToResult = some 1 ∧
    scrollerWithResult.by' 2 =
      Except.ok ({ scrollerWithResult with _scrollToResult := some 2 },
        [Ev.startScroll 2]) ∧
    Ev.cancelResult 1 ∉ [Ev.startScroll 2] := by
  refine ⟨rfl, rfl, by decide⟩

/-- C3 (amended): when an animated scroll request is issued while a
previous animation tracked by the controller is still in flight, the
controller replaces its current-operation slot with the new result within
one synchronous call, but it does not cancel the previous occupant: the
pass performs only the engine call for the new result, and any superseding
of the in-flight animation is left to the animation engine. -/
theorem c3_slot_replaced (s : Scroller) (r newId : Nat)
    (h : s._scrollToResult = some r) :
    s.by' newId =
      Except.ok ({ s with _scrollToResult := some newId },
        [Ev.startScroll newId]) ∧
    ({ s with _scrollToResult := some newId } : Scroller)._scrollToResult =
      some newId ∧
    Ev.cancelResult r ∉ [Ev.startScroll newId] := by
  refine ⟨rfl, rfl, by simp⟩

/-- C3 witness: the amended statement at the concrete tracked-result
state. -/
theorem c3_witness :
    scrollerWithResult.by' 2 =
      Except.ok ({ scrollerWithResult with _scrollToResult := some 2 },
        [Ev.startScroll 2]) ∧
    ({ scrollerWithResult with _scrollToResult := some 2 } :
        Scroller)._scrollToResult = some 2 ∧
    Ev.cancelResult 1 ∉ [Ev.startScroll 2] :=
  c3_slot_replaced scrollerWithResult 1 2 (by decide)

lemma setState_fst_state (s : Scroller) (st : ScrollerState) :
    (s._setState st).1._state = st := by
  unfold Scroller._setState
  split_ifs with h
  · rfl
  · simpa using h

lemma setState_fst_scrollToResult (s : Scroller) (st : ScrollerState) :
    (s._setState st).1._scrollToResult = s._scrollToResult := by
  unfold Scroller._setState
  split_ifs <;> rfl

lemma setState_fst_subscribers (s : Scroller) (st : ScrollerState) :
    (s._setState st).1._subscribers = s._subscribers := by
  unfold Scroller._setState
  split_ifs <;> rfl

lemma stopAux_fst_scrollToResult (s : Scroller) :
    s.stopAux.1._scrollToResult = s._scrollToResult := by
  unfold Scroller.stopAux
  split_ifs <;> simp [setState_fst_scrollToResult]

/-- After a destroy of a live instance the state is Destroyed, the tracked
result slot is cleared and the subscriber registry is empty. -/
lemma destroy_fst_fields (s : Scroller) (hnd : s.isDestroyed = false) :
    (s.destroy).1._state = ScrollerState.destroyed ∧
    (s.destroy).1._scrollToResult = none ∧
    (s.destroy).1._subscribers = [] := by
  simp only [Scroller.destroy, hnd, Bool.false_eq_true, if_false]
  refine ⟨?_, ?_, ?_⟩
  · simp [setState_fst_state]
  · simp [setState_fst_scrollToResult]
  · simp [setState_fst_subscribers]

/-- C4. The claim states every lifecycle or scroll-request method after
destroy either no-ops or fails with AlreadyDestroyed. On the concrete run
below, `by` invoked after destroy neither fails with AlreadyDestroyed nor
no-ops: it delegates to the animation engine and overwrites the
tracked-result slot, changing the instance state. -/
theorem c4_counterexample :
    (scrollerA.destroy).1._state = ScrollerState.destroyed ∧
    (scrollerA.destroy).1.by' 5 =
      Except.ok ({ (scrollerA.destroy).1 with _scrollToResult := some 5 },
        [Ev.startScroll 5]) ∧
    (scrollerA.destroy).1.by' 5 ≠
      Except.error ScrollerError.alreadyDestroyed ∧
    ({ (scrollerA.destroy).1 with _scrollToResult := some 5 } : Scroller) ≠
      (scrollerA.destroy).1 := by
  refine ⟨by decide, rfl, by simp [Scroller.by'], by decide⟩

/-- C4 (amended): destroy() is idempotent; after destroy() the lifecycle
methods ready(), start() and stop() fail with AlreadyDestroyed, cancel()
no-ops, and no further events reach subscribers (the subscriber registry is
emptied by the final offAll and the listeners are detached); the
scroll-request methods such as by(), however, perform no destroyed check:
they delegate to the animation engine and overwrite the tracked-result
slot. -/
theorem c4_destroy_guards (s : Scroller) (rid resultId : Nat)
    (hnd : s.isDestroyed = false) :
    ((s.destroy).1.destroy = ((s.destroy).1, [])) ∧
    ((s.destroy).1._state = ScrollerState.destroyed) ∧
    ((s.destroy).1.ready rid = Except.error ScrollerError.alreadyDestroyed) ∧
    ((s.destroy).1.start = Except.error ScrollerError.alreadyDestroyed) ∧
    ((s.destroy).1.stop = Except.error ScrollerError.alreadyDestroyed) ∧
    ((s.destroy).1.cancel = ((s.destroy).1, [])) ∧
    ((s.destroy).1._subscribers = []) ∧
    ((s.destroy).1.by' resultId =
      Except.ok ({ (s.destroy).1 with _scrollToResult := some resultId },
        [Ev.startScroll resultId])) := by
  obtain ⟨hst, hslot, hsub⟩ := destroy_fst_fields s hnd
  revert hst hslot hsub
  generalize (s.destroy).1 = d
  intro hst hslot hsub
  have hd : d.isDestroyed = true := by
    simp [Scroller.isDestroyed, hst]
  refine ⟨?_, hst, ?_, ?_, ?_, ?_, hsub, rfl⟩
  · simp [Scroller.destroy, hd]
  · simp [Scroller.ready, hd]
  · simp [Scroller.start, hd]
  · simp [Scroller.stop, hd]
  · simp [Scroller.cancel, hslot]

/-- C4 witness: the amended statement at the concrete live instance. -/
theorem c4_witness :
    (((scrollerA.destroy).1.destroy = ((scrollerA.destroy).1, [])) ∧
    ((scrollerA.destroy).1._state = ScrollerState.destroyed) ∧
    ((scrollerA.destroy).1.ready 3 =
      Except.error ScrollerError.alreadyDestroyed) ∧
    ((scrollerA.destroy).1.start =
      Except.error ScrollerError.alreadyDestroyed) ∧
    ((scrollerA.destroy).1.stop =
      Except.error ScrollerError.alreadyDestroyed) ∧
    ((scrollerA.destroy).1.cancel = ((scrollerA.destroy).1, [])) ∧
    ((scrollerA.destroy).1._subscribers = []) ∧
    ((scrollerA.destroy).1.by' 5 =
      Except.ok ({ (scrollerA.destroy).1 with _scrollToResult := some 5 },
        [Ev.startScroll 5]))) :=
  c4_destroy_guards scrollerA 3 5 (by decide)

/-- C5. The claim states the derived-offset equation holds after every
measurement refresh performed by the controller. On the concrete run below,
the size-only refresh performed by the background polling tick
(`_updateScrollSize` via the interval callback) updates the cached
scrollHeight to 1500 but does not re-derive scrollBottom, so
scrollBottom + scrollTop + containerHeight is 1000, not 1500. -/
theorem c5_counterexample :
    (scrollerPolling.scrollSizeOvserverTick elemGrown)._scrollHeight =
      1500 ∧
    (scrollerPolling.scrollSizeOvserverTick elemGrown)._scrollBottom +
        (scrollerPolling.scrollSizeOvserverTick elemGrown)._scrollTop +
        (scrollerPolling.scrollSizeOvserverTick elemGrown)._containerHeight
      ≠ (scrollerPolling.scrollSizeOvserverTick elemGrown)._scrollHeight := by
  decide

/-- C5 (amended): after every full measurement refresh (`_update`, as run by
`update()`, the resize handlers and the visibility handler) and after every
position refresh (`_updateScrollPositions`), the derived offsets satisfy
scrollBottom + scrollTop + containerHeight = scrollHeight and
scrollRight + scrollLeft + containerWidth = scrollWidth; the derived
Bottom/Right fields are assigned only by `_updateScrollPositions` from that
equation, never independently mutated, but a size-only refresh
(`_updateScrollSize`, used by the background polling and by the scrollStart
branch of `_onScroll`) can leave the equation violated until the next
position refresh. -/
theorem c5_update_invariant (s : Scroller) (el : Elem) (w h : Option Int) :
    ((s._update el w h).1._scrollBottom + (s._update el w h).1._scrollTop +
        (s._update el w h).1._containerHeight =
      (s._update el w h).1._scrollHeight) ∧
    ((s._update el w h).1._scrollRight + (s._update el w h).1._scrollLeft +
        (s._update el w h).1._containerWidth =
      (s._update el w h).1._scrollWidth) ∧
    ((s._updateScrollPositions el)._scrollBottom +
        (s._updateScrollPositions el)._scrollTop +
        (s._updateScrollPositions el)._containerHeight =
      (s._updateScrollPositions el)._scrollHeight) ∧
    ((s._updateScrollPositions el)._scrollRight +
        (s._updateScrollPositions el)._scrollLeft +
        (s._updateScrollPositions el)._containerWidth =
      (s._updateScrollPositions el)._scrollWidth) := by
  refine ⟨?_, ?_, ?_, ?_⟩ <;>
    simp [Scroller._update, Scroller._updateContainerSize,
      Scroller._updateScrollSize, Scroller._updateScrollPositions] <;>
    ring

lemma updateScrollable_fst_stoppers (s : Scroller) :
    s._updateScrollable.1._scrollStoppers = s._scrollStoppers := by
  unfold Scroller._updateScrollable
  split_ifs with h
  · rfl
  · unfold Scroller.cancel
    rcases hs : s._scrollToResult with _ | id <;> simp [hs]

lemma push_fst_stoppers (s : Scroller) (t : Nat) :
    (s.pushScrollStopper t).1._scrollStoppers =
      if s._scrollStoppers.contains t then s._scrollStoppers
      else s._scrollStoppers ++ [t] := by
  simp only [Scroller.pushScrollStopper]
  by_cases hm : s._scrollStoppers.contains t = true
  · rw [if_pos hm, if_pos hm]
  · rw [if_neg hm, if_neg hm]
    split
    · exact updateScrollable_fst_stoppers _
    · rfl

lemma remove_fst_stoppers (s : Scroller) (t : Nat) :
    (s.removeScrollStopper t).1._scrollStoppers =
      if s._scrollStoppers.contains t then s._scrollStoppers.erase t
      else s._scrollStoppers := by
  simp only [Scroller.removeScrollStopper]
  by_cases hm : s._scrollStoppers.contains t = true
  · rw [if_pos hm, if_pos hm]
    split
    · exact updateScrollable_fst_stoppers _
    · rfl
  · rw [if_neg hm, if_neg hm]

/-- C6: for every sequence of pushScrollStopper/removeScrollStopper calls,
scrollEnabled is true iff the stopper registry is empty; pushing an
already-present token is a no-op, removing an absent token is a no-op, and
from an empty registry pushing two distinct tokens and removing only one
leaves scrollEnabled false while removing both restores scrollEnabled. -/
theorem c6_stopper_registry (s s0 : Scroller) (t t1 t2 : Nat)
    (hne : t1 ≠ t2) (h0 : s0._scrollStoppers = []) :
    (s.scrollEnabled = true ↔ s._scrollStoppers = []) ∧
    (s._scrollStoppers.contains t = true → (s.pushScrollStopper t).1 = s) ∧
    (s._scrollStoppers.contains t = false →
      (s.removeScrollStopper t).1 = s) ∧
    ((((s0.pushScrollStopper t1).1.pushScrollStopper
        t2).1.removeScrollStopper t1).1.scrollEnabled = false) ∧
    (((((s0.pushScrollStopper t1).1.pushScrollStopper
        t2).1.removeScrollStopper t1).1.removeScrollStopper
        t2).1.scrollEnabled = true) := by
  have hc : ∀ s' : Scroller, s'.scrollEnabled = true ↔
      s'._scrollStoppers = [] := by
    intro s'
    simp [Scroller.scrollEnabled, List.length_eq_zero]
  have ha : (s0.pushScrollStopper t1).1._scrollStoppers = [t1] := by
    rw [push_fst_stoppers, h0]
    simp
  have hb : ((s0.pushScrollStopper t1).1.pushScrollStopper
      t2).1._scrollStoppers = [t1, t2] := by
    rw [push_fst_stoppers, ha]
    simp [Ne.symm hne]
  have hcrem : (((s0.pushScrollStopper t1).1.pushScrollStopper
      t2).1.removeScrollStopper t1).1._scrollStoppers = [t2] := by
    rw [remove_fst_stoppers, hb]
    simp
  have hdrem : ((((s0.pushScrollStopper t1).1.pushScrollStopper
      t2).1.removeScrollStopper t1).1.removeScrollStopper
      t2).1._scrollStoppers = [] := by
    rw [remove_fst_stoppers, hcrem]
    simp
  refine ⟨hc s, ?_, ?_, ?_, ?_⟩
  · intro h
    simp only [Scroller.pushScrollStopper]
    rw [if_pos h]
  · intro h
    simp only [Scroller.removeScrollStopper]
    rw [if_neg (by rw [h]; simp)]
  · simp [Scroller.scrollEnabled, hcrem]
  · simp [Scroller.scrollEnabled, hdrem]

/-- C6 witness: the statement at concrete tokens 0 and 1 from the empty
registry of `scrollerA`. -/
theorem c6_witness :
    ((scrollerA.scrollEnabled = true ↔ scrollerA._scrollStoppers = []) ∧
    (scrollerA._scrollStoppers.contains 0 = true →
      (scrollerA.pushScrollStopper 0).1 = scrollerA) ∧
    (scrollerA._scrollStoppers.contains 0 = false →
      (scrollerA.removeScrollStopper 0).1 = scrollerA) ∧
    ((((scrollerA.pushScrollStopper 0).1.pushScrollStopper
        1).1.removeScrollStopper 0).1.scrollEnabled = false) ∧
    (((((scrollerA.pushScrollStopper 0).1.pushScrollStopper
        1).1.removeScrollStopper 0).1.removeScrollStopper
        1).1.scrollEnabled = true)) :=
  c6_stopper_registry scrollerA scrollerA 0 0 1 (by decide) (by decide)

lemma updateScrollable_fst_state (s : Scroller) :
    s._updateScrollable.1._state = s._state := by
  unfold Scroller._updateScrollable
  split_ifs with h
  · rfl
  · unfold Scroller.cancel
    rcases hs : s._scrollToResult with _ | id <;> simp [hs]

lemma updateScrollable_fst_readyResolvers (s : Scroller) :
    s._updateScrollable.1._readyResolvers = s._readyResolvers := by
  unfold Scroller._updateScrollable
  split_ifs with h
  · rfl
  · unfold Scroller.cancel
    rcases hs : s._scrollToResult with _ | id <;> simp [hs]

lemma update_fst_state (s : Scroller) (el : Elem) (w h : Option Int) :
    (s._update el w h).1._state = s._state :=
  rfl

lemma update_fst_readyResolvers (s : Scroller) (el : Elem)
    (w h : Option Int) :
    (s._update el w h).1._readyResolvers = s._readyResolvers :=
  rfl

lemma updateScrollable_events_mem (s : Scroller) :
    ∀ e ∈ s._updateScrollable.2,
      e = Ev.enableHostScroll ∨ e = Ev.disableHostScroll ∨
        ∃ j, e = Ev.cancelResult j := by
  unfold Scroller._updateScrollable
  split_ifs with h
  · intro e he
    simp at he
    exact Or.inl he
  · unfold Scroller.cancel
    rcases hs : s._scrollToResult with _ | id <;> intro e he <;>
      simp [hs] at he
    · exact Or.inr (Or.inl he)
    · rcases he with he | he
      · exact Or.inr (Or.inr ⟨id, he⟩)
      · exact Or.inr (Or.inl he)

lemma update_events_mem (s : Scroller) (el : Elem) (w h : Option Int) :
    ∀ e ∈ (s._update el w h).2, ∃ a b, e = Ev.resize a b := by
  intro e he
  simp only [Scroller._update, Scroller._updateContainerSize] at he
  split at he
  · simp at he
    exact ⟨_, _, he⟩
  · simp at he

/-- C7: binding an element through setElement fails with InvalidTarget when
no matching element is resolvable; otherwise it performs the initial
measurement, transitions Pending to Ready, auto-starts (Ready to Running,
the continuation of `start()` being the first drained microtask), and then
resumes all pending ready waiters, in that order. -/
theorem c7_setElement_order (s : Scroller) (el : Elem)
    (hp : s._state = ScrollerState.pending) :
    (s.setElement none = Except.error ScrollerError.invalidTarget) ∧
    (∃ pre,
      (∀ e ∈ pre, e = Ev.enableHostScroll ∨ e = Ev.disableHostScroll ∨
        (∃ j, e = Ev.cancelResult j) ∨ ∃ a b, e = Ev.resize a b) ∧
      ∃ s2, s.setElement (some el) =
          Except.ok (s2, pre ++
            [Ev.changeState ScrollerState.ready, Ev.ready,
              Ev.startListeners, Ev.changeState ScrollerState.running] ++
            s._readyResolvers.map Ev.waiterResumed) ∧
        s2._state = ScrollerState.running ∧
        s2._readyResolvers = [] ∧
        s2._containerWidth = el.clientWidth ∧
        s2._containerHeight = el.clientHeight ∧
        s2._scrollWidth = el.scrollWidth ∧
        s2._scrollHeight = el.scrollHeight ∧
        s2._scrollTop = el.scrollTop ∧
        s2._scrollLeft = el.scrollLeft) := by
  have hnd : s.isDestroyed = false := by simp [Scroller.isDestroyed, hp]
  have hnr : s.isRunning = false := by simp [Scroller.isRunning, hp]
  constructor
  · simp [Scroller.setElement, Scroller.stop, hnd, Scroller.stopAux, hnr]
  · refine ⟨(({ s with _elBound := true } : Scroller)._updateScrollable).2 ++
      ((({ s with _elBound := true } :
        Scroller)._updateScrollable).1._update el none none).2, ?_, ?_⟩
    · intro e he
      rcases List.mem_append.mp he with h1 | h2
      · rcases updateScrollable_events_mem _ e h1 with h | h | ⟨j, hj⟩
        exacts [Or.inl h, Or.inr (Or.inl h),
          Or.inr (Or.inr (Or.inl ⟨j, hj⟩))]
      · obtain ⟨a, b, hab⟩ := update_events_mem _ el none none e h2
        exact Or.inr (Or.inr (Or.inr ⟨a, b, hab⟩))
    · refine ⟨{ ((({ s with _elBound := true } :
          Scroller)._updateScrollable).1._update el none none).1 with
            _state := ScrollerState.running
            _readyResolvers := []
            _listenersActive := true }, ?_, rfl, rfl, rfl, rfl, rfl, rfl,
          rfl, rfl⟩
      simp [Scroller.setElement, Scroller.stop, hnd, Scroller.stopAux, hnr,
        Scroller._setup, Scroller._setState, update_fst_state,
        updateScrollable_fst_state, update_fst_readyResolvers,
        updateScrollable_fst_readyResolvers, hp]

/-- C7 witness: the statement at the concrete pending instance with two
queued waiters. -/
theorem c7_witness :
    ((scrollerPending.setElement none =
      Except.error ScrollerError.invalidTarget) ∧
    (∃ pre,
      (∀ e ∈ pre, e = Ev.enableHostScroll ∨ e = Ev.disableHostScroll ∨
        (∃ j, e = Ev.cancelResult j) ∨ ∃ a b, e = Ev.resize a b) ∧
      ∃ s2, scrollerPending.setElement (some elemA) =
          Except.ok (s2, pre ++
            [Ev.changeState ScrollerState.ready, Ev.ready,
              Ev.startListeners, Ev.changeState ScrollerState.running] ++
            scrollerPending._readyResolvers.map Ev.waiterResumed) ∧
        s2._state = ScrollerState.running ∧
        s2._readyResolvers = [] ∧
        s2._containerWidth = elemA.clientWidth ∧
        s2._containerHeight = elemA.clientHeight ∧
        s2._scrollWidth = elemA.scrollWidth ∧
        s2._scrollHeight = elemA.scrollHeight ∧
        s2._scrollTop = elemA.scrollTop ∧
        s2._scrollLeft = elemA.scrollLeft)) :=
  c7_setElement_order scrollerPending elemA (by decide)

/-- C8: for every raw scroll notification (with scrolling enabled), each
per-axis direction is updated only when that axis actually moved during the
tick, otherwise the previous direction is retained; the y direction becomes
bottom when the offset grew and top when it shrank, and the x direction
becomes right when the offset grew and left when it shrank. -/
theorem c8_direction_update (s : Scroller) (el : Elem)
    (hen : s.scrollEnabled = true) :
    (s._scrollTop < el.scrollTop →
      (s._onScroll el).1._lastYDirection = ScrollYDirection.bottom) ∧
    (s._scrollTop > el.scrollTop →
      (s._onScroll el).1._lastYDirection = ScrollYDirection.top) ∧
    (s._scrollTop = el.scrollTop →
      (s._onScroll el).1._lastYDirection = s._lastYDirection) ∧
    (s._scrollLeft < el.scrollLeft →
      (s._onScroll el).1._lastXDirection = ScrollXDirection.right) ∧
    (s._scrollLeft > el.scrollLeft →
      (s._onScroll el).1._lastXDirection = ScrollXDirection.left) ∧
    (s._scrollLeft = el.scrollLeft →
      (s._onScroll el).1._lastXDirection = s._lastXDirection) := by
  refine ⟨?_, ?_, ?_, ?_, ?_, ?_⟩ <;> intro h
  · rw [onScroll_fst_lastYDirection s el hen]
    unfold nextYDirection
    split_ifs <;> first | rfl | omega
  · rw [onScroll_fst_lastYDirection s el hen]
    unfold nextYDirection
    split_ifs <;> first | rfl | omega
  · rw [onScroll_fst_lastYDirection s el hen]
    unfold nextYDirection
    split_ifs <;> first | rfl | omega
  · rw [onScroll_fst_lastXDirection s el hen]
    unfold nextXDirection
    split_ifs <;> first | rfl | omega
  · rw [onScroll_fst_lastXDirection s el hen]
    unfold nextXDirection
    split_ifs <;> first | rfl | omega
  · rw [onScroll_fst_lastXDirection s el hen]
    unfold nextXDirection
    split_ifs <;> first | rfl | omega

/-- C8 witness: the statement at the concrete reversal input (the y axis
moved up, the x axis did not move). -/
theorem c8_witness :
    ((scrollerA._scrollTop < elemReversed.scrollTop →
      (scrollerA._onScroll elemReversed).1._lastYDirection =
        ScrollYDirection.bottom) ∧
    (scrollerA._scrollTop > elemReversed.scrollTop →
      (scrollerA._onScroll elemReversed).1._lastYDirection =
        ScrollYDirection.top) ∧
    (scrollerA._scrollTop = elemReversed.scrollTop →
      (scrollerA._onScroll elemReversed).1._lastYDirection =
        scrollerA._lastYDirection) ∧
    (scrollerA._scrollLeft < elemReversed.scrollLeft →
      (scrollerA._onScroll elemReversed).1._lastXDirection =
        ScrollXDirection.right) ∧
    (scrollerA._scrollLeft > elemReversed.scrollLeft →
      (scrollerA._onScroll elemReversed).1._lastXDirection =
        ScrollXDirection.left) ∧
    (scrollerA._scrollLeft = elemReversed.scrollLeft →
      (scrollerA._onScroll elemReversed).1._lastXDirection =
        scrollerA._lastXDirection)) :=
  c8_direction_update scrollerA elemReversed (by decide)

/-- C10: whenever scrollEnabled is false, processing a raw scroll
notification writes the cached scrollLeft and scrollTop back to the host
element and returns immediately: the instance state is unchanged (no cached
measurement, axis, direction, or episode state changes) and no event is
emitted. -/
theorem c10_disabled_writeback (s : Scroller) (el : Elem)
    (hd : s.scrollEnabled = false) :
    s._onScroll el =
      (s, { el with scrollLeft := s._scrollLeft, scrollTop := s._scrollTop },
        []) := by
  simp [Scroller._onScroll, hd]

/-- C10 witness: the statement at the concrete suspended instance. -/
theorem c10_witness :
    scrollerStopped._onScroll elemReversed =
      (scrollerStopped,
        { elemReversed with
            scrollLeft := scrollerStopped._scrollLeft
            scrollTop := scrollerStopped._scrollTop },
        []) :=
  c10_disabled_writeback scrollerStopped elemReversed (by decide)

end Scroller

/-- C9: for every scrollToSide call whose side list contains top, the
horizontal target is set only when the list also contains right; in
particular the side pairs top/left and left/top (the latter as used by the
left-top corner helper) set only y = 0 and leave the horizontal offset
unchanged, because the left side is skipped through the else-if whenever
top is present. -/
theorem c9_top_skips_left (sides : List ScrollDirection) (c : Option Elem)
    (p : ScrollPositionPartial)
    (htop : sides.contains ScrollDirection.top = true)
    (hok : scrollToSide sides c = Except.ok p) :
    (p.x.isSome = true → sides.contains ScrollDirection.right = true) ∧
    (∀ c2, scrollToSide [ScrollDirection.top, ScrollDirection.left] c2 =
        Except.ok { x := none, y := some 0 } ∧
      scrollToSide [ScrollDirection.left, ScrollDirection.top] c2 =
        Except.ok { x := none, y := some 0 } ∧
      scrollToLeftTop c2 = Except.ok { x := none, y := some 0 }) := by
  constructor
  · intro hx
    by_cases hr : sides.contains ScrollDirection.right = true
    · exact hr
    exfalso
    have htopm : ScrollDirection.top ∈ sides := by simpa using htop
    have hrm : ScrollDirection.right ∉ sides := by simpa using hr
    obtain ⟨px, py⟩ := p
    by_cases hbm : ScrollDirection.bottom ∈ sides
    · rcases c with _ | cc
      · simp [scrollToSide, htopm, hrm, hbm] at hok
      · simp [scrollToSide, htopm, hrm, hbm] at hok
        rw [← hok.1] at hx
        simp at hx
    · simp [scrollToSide, htopm, hrm, hbm] at hok
      rw [← hok.1] at hx
      simp at hx
  · intro c2
    refine ⟨rfl, rfl, rfl⟩

/-- C9 witness: the statement at the concrete top/right request against the
concrete container. -/
theorem c9_witness :
    (((ScrollPositionPartial.mk (some 1000) (some 0)).x.isSome = true →
      ([ScrollDirection.top,
        ScrollDirection.right] : List ScrollDirection).contains
          ScrollDirection.right = true) ∧
    (∀ c2, scrollToSide [ScrollDirection.top, ScrollDirection.left] c2 =
        Except.ok { x := none, y := some 0 } ∧
      scrollToSide [ScrollDirection.left, ScrollDirection.top] c2 =
        Except.ok { x := none, y := some 0 } ∧
      scrollToLeftTop c2 = Except.ok { x := none, y := some 0 })) :=
  c9_top_skips_left [ScrollDirection.top, ScrollDirection.right]
    (some elemA) (ScrollPositionPartial.mk (some 1000) (some 0))
    (by decide) (by rfl)

end DdScroller
